import Mathlib

/-!
Verification of the snarkVM DPC core (testnet1/testnet2) against its
natural-language specification.

The visible source of the repository consists of the integration test
`dpc_testnet1.rs` and the parameter table `testnet2.rs`.  The core code those
files exercise (Ledger, Transaction, the authorization builder, the circuits,
the parameter loading macros) is not part of the visible source, so those
parts are modelled from the specification; every such definition carries a
doc comment starting with `Modelled from the spec:`.  Cryptographic
primitives (hashes, commitments, PRFs, signatures, SNARKs) are declared out
of scope by the specification and are modelled by concrete executable
stand-ins that keep exactly the properties the spec relies on (determinism,
fixed output width); no hiding or collision-resistance property is claimed
of them.
-/

namespace SnarkVM

set_option maxRecDepth 100000

/-! ## Byte-level encoding utilities -/

/-- Little-endian encoding of `n` into exactly `w` bytes (the value is taken
modulo `256 ^ w`). -/
def bytesLE : Nat → Nat → List Nat
  | 0, _ => []
  | w + 1, n => n % 256 :: bytesLE w (n / 256)

/-- Little-endian decoding of a byte list back into a natural number. -/
def natOfBytesLE : List Nat → Nat
  | [] => 0
  | b :: bs => b % 256 + 256 * natOfBytesLE bs

/-- Consuming decoder: read `w` bytes as a little-endian number, return the
rest of the stream. -/
def takeNatLE (w : Nat) (s : List Nat) : Option (Nat × List Nat) :=
  if w ≤ s.length then some (natOfBytesLE (s.take w), s.drop w) else none

/-- Consuming decoder: read `w` raw bytes, return them and the rest. -/
def takeRaw (w : Nat) (s : List Nat) : Option (List Nat × List Nat) :=
  if w ≤ s.length then some (s.take w, s.drop w) else none

/-- Consuming decoder for a homogeneous sequence: run `dec` exactly `count`
times, collecting results. -/
def decodeMany {α : Type} (dec : List Nat → Option (α × List Nat)) :
    Nat → List Nat → Option (List α × List Nat)
  | 0, s => some ([], s)
  | count + 1, s =>
    match dec s with
    | none => none
    | some (a, s1) =>
      match decodeMany dec count s1 with
      | none => none
      | some (as, s2) => some (a :: as, s2)

/-! ## Modelled cryptographic primitives

The specification places the concrete hash/commitment/PRF/signature/SNARK
algorithms out of scope ("exposed only as capability interfaces").  They are
modelled here by a concrete, executable mixing function into a 256-bit digest
space; the model keeps determinism and fixed output width, which is all the
claims rely on. -/

/-- Digest space of the modelled 256-bit primitives. -/
def DIGEST_MOD : Nat := 2 ^ 256

/-- Modelled from the spec: one absorption step of the stand-in hash. -/
def mixStep (a x : Nat) : Nat := (a * 1099511628211 + x + 7) % DIGEST_MOD

/-- Modelled from the spec: domain-separated stand-in hash over a list of
field elements, `Hash(domain, inputs)`. -/
def hashN (domain : Nat) (xs : List Nat) : Nat :=
  xs.foldl mixStep (mixStep 14695981039346656037 domain)

/-- Domain separators of the modelled primitive roles. -/
def DOMAIN_VIEW_KEY : Nat := 1
def DOMAIN_ADDRESS : Nat := 2
def DOMAIN_SERIAL_NUMBER_PRF : Nat := 3
def DOMAIN_RECORD_COMMITMENT : Nat := 4
def DOMAIN_SERIAL_NUMBER_NONCE : Nat := 5
def DOMAIN_TRANSACTION_ID : Nat := 6
def DOMAIN_TRANSACTIONS_ROOT : Nat := 7
def DOMAIN_LEDGER_MERKLE : Nat := 8
def DOMAIN_BLOCK_HASH : Nat := 9
def DOMAIN_SIGNATURE : Nat := 10
def DOMAIN_CIPHERTEXT_HASH : Nat := 11
def DOMAIN_INNER_CIRCUIT_ID : Nat := 12
def DOMAIN_COMMITMENT_RANDOMNESS : Nat := 13

/-! ## Accounts -/

/-- Modelled from the spec: account key derivation (the concrete signature and
encryption schemes are out of scope); a view key is derived from the private
key, and the address from the view key. -/
def view_key_of (private_key : Nat) : Nat := hashN DOMAIN_VIEW_KEY [private_key]

/-- Modelled from the spec: address derived from the view key. -/
def address_of_view_key (view_key : Nat) : Nat := hashN DOMAIN_ADDRESS [view_key]

/-- Account with its derived keys, as produced by `Account::new`. -/
structure Account where
  private_key : Nat
  view_key : Nat
  address : Nat
  deriving DecidableEq, Repr

/-- Modelled from the spec: `Account::new` derives the view key and address
from a fresh private key. -/
def Account.new (private_key : Nat) : Account :=
  { private_key := private_key
    view_key := view_key_of private_key
    address := address_of_view_key (view_key_of private_key) }

/-- Modelled from the spec: `ViewKey::from_private_key`. -/
def ViewKey.from_private_key (private_key : Nat) : Nat := view_key_of private_key

/-! ## Records -/

/-- Record: private note representation (spec section 3): owner address, value,
opaque payload, optional program id, serial-number nonce, commitment and the
commitment randomness.  The serial number is derived, not stored. -/
structure Record where
  owner : Nat
  value : Nat
  payload : List Nat
  program_id : Option Nat
  serial_number_nonce : Nat
  commitment_randomness : Nat
  commitment : Nat
  deriving DecidableEq, Repr

/-- Modelled from the spec: `Commit(owner, value, payload, program id, nonce,
randomness)`, the binding commitment to all other record fields. -/
def record_commitment (owner value : Nat) (payload : List Nat)
    (program_id : Option Nat) (serial_number_nonce commitment_randomness : Nat) : Nat :=
  hashN DOMAIN_RECORD_COMMITMENT
    ([owner, value] ++ payload ++ [payload.length, program_id.getD 0,
      (if program_id.isSome then 1 else 0), serial_number_nonce, commitment_randomness])

/-- Modelled from the spec: a record is a dummy (noop padding) record when it
carries no value, payload or program. -/
def Record.is_dummy (r : Record) : Bool :=
  r.value == 0 && r.payload == [] && r.program_id == none

/-- Modelled from the spec: the serial number is a deterministic
pseudorandom-function evaluation over the owner seed and the record
commitment; the owner key material is represented by the owner address. -/
def serial_number_of (r : Record) : Nat :=
  hashN DOMAIN_SERIAL_NUMBER_PRF [r.owner, r.commitment]

/-- Byte encoding of an optional 32-byte value: tag byte then payload. -/
def encOptNat : Option Nat → List Nat
  | none => [0]
  | some p => 1 :: bytesLE 32 p

/-- Consuming decoder matching `encOptNat`. -/
def decOptNat : List Nat → Option (Option Nat × List Nat)
  | 0 :: rest => some (none, rest)
  | 1 :: rest =>
    match takeNatLE 32 rest with
    | none => none
    | some (p, rest1) => some (some p, rest1)
  | _ => none

/-- Fixed-order byte serialization of a record (spec section 6: fixed-order
field concatenation; variable-size payload carries a 4-byte length). -/
def Record.to_bytes_le (r : Record) : List Nat :=
  bytesLE 32 r.owner ++ bytesLE 8 r.value ++
  bytesLE 4 r.payload.length ++ r.payload ++
  encOptNat r.program_id ++
  bytesLE 32 r.serial_number_nonce ++ bytesLE 32 r.commitment_randomness ++
  bytesLE 32 r.commitment

/-- Consuming deserializer of a record, inverse of `Record.to_bytes_le`. -/
def Record.read_le (s : List Nat) : Option (Record × List Nat) :=
  match takeNatLE 32 s with
  | none => none
  | some (owner, s1) =>
    match takeNatLE 8 s1 with
    | none => none
    | some (value, s2) =>
      match takeNatLE 4 s2 with
      | none => none
      | some (plen, s3) =>
        match takeRaw plen s3 with
        | none => none
        | some (payload, s4) =>
          match decOptNat s4 with
          | none => none
          | some (program_id, s5) =>
            match takeNatLE 32 s5 with
            | none => none
            | some (nonce, s6) =>
              match takeNatLE 32 s6 with
              | none => none
              | some (rand, s7) =>
                match takeNatLE 32 s7 with
                | none => none
                | some (comm, s8) =>
                  some ({ owner := owner, value := value, payload := payload,
                          program_id := program_id, serial_number_nonce := nonce,
                          commitment_randomness := rand, commitment := comm }, s8)

/-- Well-formedness bounds making a record byte-serializable. -/
def Record.wf (r : Record) : Prop :=
  r.owner < 256 ^ 32 ∧ r.value < 256 ^ 8 ∧ r.payload.length < 256 ^ 4 ∧
  (∀ p, r.program_id = some p → p < 256 ^ 32) ∧
  r.serial_number_nonce < 256 ^ 32 ∧ r.commitment_randomness < 256 ^ 32 ∧
  r.commitment < 256 ^ 32

instance (r : Record) : Decidable r.wf := by
  unfold Record.wf
  have : (∀ p, r.program_id = some p → p < 256 ^ 32) ↔
      (match r.program_id with | none => True | some p => p < 256 ^ 32) := by
    cases h : r.program_id <;> simp [h]
  rw [this]
  cases r.program_id <;> dsimp <;> infer_instance

/-! ## Record encryption -/

/-- Modelled from the spec: an encrypted record: ciphertext produced under a
key derived from the recipient address, plus the data needed to recover the
record with the matching view key.  Hiding is a cryptographic property out of
the spec's scope and is not modelled. -/
structure EncryptedRecord where
  recipient_address : Nat
  data : List Nat
  deriving DecidableEq, Repr

/-- Modelled from the spec: symmetric encryption of an output record under a
key derived from the recipient's address. -/
def EncryptedRecord.encrypt (r : Record) (recipient_address : Nat) : EncryptedRecord :=
  { recipient_address := recipient_address, data := r.to_bytes_le }

/-- Modelled from the spec: `EncryptedRecord::decrypt` with a view key
recovers the record exactly when the address derived from the view key is the
recipient address of the ciphertext. -/
def EncryptedRecord.decrypt (c : EncryptedRecord) (view_key : Nat) : Option Record :=
  if address_of_view_key view_key = c.recipient_address then
    match Record.read_le c.data with
    | some (r, []) => some r
    | _ => none
  else none

/-- Modelled from the spec: ciphertext hash bound into circuit public inputs. -/
def EncryptedRecord.to_hash (c : EncryptedRecord) : Nat :=
  hashN DOMAIN_CIPHERTEXT_HASH (c.recipient_address :: c.data)

/-- Byte serialization of an encrypted record: 32-byte recipient key material,
4-byte data length, then the data. -/
def EncryptedRecord.to_bytes_le (c : EncryptedRecord) : List Nat :=
  bytesLE 32 c.recipient_address ++ bytesLE 4 c.data.length ++ c.data

/-- Consuming deserializer of an encrypted record. -/
def EncryptedRecord.read_le (s : List Nat) : Option (EncryptedRecord × List Nat) :=
  match takeNatLE 32 s with
  | none => none
  | some (addr, s1) =>
    match takeNatLE 4 s1 with
    | none => none
    | some (dlen, s2) =>
      match takeRaw dlen s2 with
      | none => none
      | some (data, s3) => some ({ recipient_address := addr, data := data }, s3)

/-- Well-formedness bounds making an encrypted record serializable. -/
def EncryptedRecord.wf (c : EncryptedRecord) : Prop :=
  c.recipient_address < 256 ^ 32 ∧ c.data.length < 256 ^ 4

instance (c : EncryptedRecord) : Decidable c.wf := by
  unfold EncryptedRecord.wf; infer_instance

/-! ## Transactions -/

/-- Memo size fixed by the parameter table (`MEMO_SIZE_IN_BYTES`). -/
def MEMO_SIZE_IN_BYTES : Nat := 64

/-- Transaction (spec section 3): network id, consumed serial numbers,
produced commitments, value balance (negative fee mints, as in a coinbase),
memo, encrypted output records with their hashes, and the outer proof.  The
transaction id is derived from the kernel fields, not stored. -/
structure Transaction where
  network_id : Nat
  serial_numbers : List Nat
  commitments : List Nat
  value_balance : Int
  memo : List Nat
  encrypted_records : List EncryptedRecord
  encrypted_record_hashes : List Nat
  proof : List Nat
  deriving DecidableEq, Repr

/-- Offset encoding of a 64-bit signed value into a natural number. -/
def intEnc (v : Int) : Nat := (v + 2 ^ 63).toNat

/-- Inverse of `intEnc`. -/
def intDec (n : Nat) : Int := (n : Int) - 2 ^ 63

/-- Modelled from the spec: the transaction id is the hash of the canonical
kernel fields (serial numbers, commitments, memo, network id, fee) under a
fixed domain separator. -/
def Transaction.to_transaction_id (t : Transaction) : Nat :=
  hashN DOMAIN_TRANSACTION_ID
    ([t.network_id] ++ t.serial_numbers ++ [t.serial_numbers.length] ++
     t.commitments ++ [t.commitments.length, intEnc t.value_balance] ++ t.memo)

/-- Fixed-order byte serialization of a transaction
(`Transaction::to_bytes_le`). -/
def Transaction.to_bytes_le (t : Transaction) : List Nat :=
  bytesLE 2 t.network_id ++
  bytesLE 4 t.serial_numbers.length ++ (t.serial_numbers.map (bytesLE 32)).flatten ++
  bytesLE 4 t.commitments.length ++ (t.commitments.map (bytesLE 32)).flatten ++
  bytesLE 8 (intEnc t.value_balance) ++
  t.memo ++
  bytesLE 4 t.encrypted_records.length ++
    (t.encrypted_records.map EncryptedRecord.to_bytes_le).flatten ++
  bytesLE 4 t.encrypted_record_hashes.length ++
    (t.encrypted_record_hashes.map (bytesLE 32)).flatten ++
  bytesLE 4 t.proof.length ++ t.proof

/-- Consuming deserializer of a transaction (`Transaction::read_le`); the
wire format is the exact inverse of `Transaction.to_bytes_le`. -/
def Transaction.read_le_consume (s : List Nat) : Option (Transaction × List Nat) :=
  match takeNatLE 2 s with
  | none => none
  | some (network_id, s1) =>
    match takeNatLE 4 s1 with
    | none => none
    | some (ns, s2) =>
      match decodeMany (takeNatLE 32) ns s2 with
      | none => none
      | some (serial_numbers, s3) =>
        match takeNatLE 4 s3 with
        | none => none
        | some (nc, s4) =>
          match decodeMany (takeNatLE 32) nc s4 with
          | none => none
          | some (commitments, s5) =>
            match takeNatLE 8 s5 with
            | none => none
            | some (vb, s6) =>
              match takeRaw MEMO_SIZE_IN_BYTES s6 with
              | none => none
              | some (memo, s7) =>
                match takeNatLE 4 s7 with
                | none => none
                | some (ne, s8) =>
                  match decodeMany EncryptedRecord.read_le ne s8 with
                  | none => none
                  | some (encrypted_records, s9) =>
                    match takeNatLE 4 s9 with
                    | none => none
                    | some (nh, s10) =>
                      match decodeMany (takeNatLE 32) nh s10 with
                      | none => none
                      | some (hashes, s11) =>
                        match takeNatLE 4 s11 with
                        | none => none
                        | some (np, s12) =>
                          match takeRaw np s12 with
                          | none => none
                          | some (proof, s13) =>
                            some ({ network_id := network_id,
                                    serial_numbers := serial_numbers,
                                    commitments := commitments,
                                    value_balance := intDec vb,
                                    memo := memo,
                                    encrypted_records := encrypted_records,
                                    encrypted_record_hashes := hashes,
                                    proof := proof }, s13)

/-- Deserializer of a transaction from a whole byte string. -/
def Transaction.read_le (s : List Nat) : Option Transaction :=
  match Transaction.read_le_consume s with
  | some (t, []) => some t
  | _ => none

/-- Well-formedness bounds making a transaction byte-serializable. -/
def Transaction.wf (t : Transaction) : Prop :=
  t.network_id < 256 ^ 2 ∧
  t.serial_numbers.length < 256 ^ 4 ∧ (∀ x ∈ t.serial_numbers, x < 256 ^ 32) ∧
  t.commitments.length < 256 ^ 4 ∧ (∀ x ∈ t.commitments, x < 256 ^ 32) ∧
  -2 ^ 63 ≤ t.value_balance ∧ t.value_balance < 2 ^ 63 ∧
  t.memo.length = MEMO_SIZE_IN_BYTES ∧
  t.encrypted_records.length < 256 ^ 4 ∧ (∀ c ∈ t.encrypted_records, c.wf) ∧
  t.encrypted_record_hashes.length < 256 ^ 4 ∧
    (∀ x ∈ t.encrypted_record_hashes, x < 256 ^ 32) ∧
  t.proof.length < 256 ^ 4

instance (t : Transaction) : Decidable t.wf := by
  unfold Transaction.wf
  infer_instance

/-! ## Coinbase transactions and block rewards -/

/-- Network id of Testnet1 (`NETWORK_ID`; the parameter table pins 2 for
Testnet2, and 1 for Testnet1). -/
def NETWORK_ID : Nat := 1

/-- Number of input records fixed by the network (`NUM_INPUT_RECORDS`). -/
def NUM_INPUT_RECORDS : Nat := 2

/-- Number of output records fixed by the network (`NUM_OUTPUT_RECORDS`). -/
def NUM_OUTPUT_RECORDS : Nat := 2

/-- Modelled from the spec: the block-reward schedule is network policy
external to this core; the contract only requires a pure deterministic
function of the height.  A fixed representative schedule is used. -/
def block_reward (_block_height : Nat) : Nat := 150000000

/-- Modelled from the spec: a fresh output record minted to `recipient_address`
holding `amount`, with nonce and randomness drawn from the seed, and its
commitment recomputed from all other fields. -/
def mint_record (recipient_address amount seed : Nat) : Record :=
  let nonce := hashN DOMAIN_SERIAL_NUMBER_NONCE [seed]
  let randomness := hashN DOMAIN_COMMITMENT_RANDOMNESS [seed]
  { owner := recipient_address
    value := amount
    payload := []
    program_id := none
    serial_number_nonce := nonce
    commitment_randomness := randomness
    commitment := record_commitment recipient_address amount [] none nonce randomness }

/-- Modelled from the spec: `Transaction::new_coinbase` builds a transaction
minting `amount` to the recipient: dummy inputs contribute their serial
numbers, the sole real output is the reward record, the value balance is the
negated minted amount, and the output record is encrypted to the recipient. -/
def Transaction.new_coinbase (recipient_address amount seed : Nat) : Transaction :=
  let reward_record := mint_record recipient_address amount seed
  let dummy_sn0 := hashN DOMAIN_SERIAL_NUMBER_PRF [seed, 0]
  let dummy_sn1 := hashN DOMAIN_SERIAL_NUMBER_PRF [seed, 1]
  let encrypted := EncryptedRecord.encrypt reward_record recipient_address
  { network_id := NETWORK_ID
    serial_numbers := [dummy_sn0, dummy_sn1]
    commitments := [reward_record.commitment]
    value_balance := -(amount : Int)
    memo := List.replicate MEMO_SIZE_IN_BYTES 0
    encrypted_records := [encrypted]
    encrypted_record_hashes := [encrypted.to_hash]
    proof := [] }

/-- Modelled from the spec: a coinbase transaction is one whose value balance
is negative (it mints value). -/
def Transaction.is_coinbase (t : Transaction) : Bool := t.value_balance < 0

/-! ## Blocks and the ledger -/

/-- Block header (spec section 3): height, timestamp, difficulty target and
the three recomputable roots, plus the proof-of-work nonce drawn by
`BlockHeader::new`. -/
structure BlockHeader where
  height : Nat
  timestamp : Int
  difficulty_target : Nat
  transactions_root : Nat
  serial_numbers_root : Nat
  commitments_root : Nat
  nonce : Nat
  deriving DecidableEq, Repr

/-- Block: previous block hash, header and transaction list. -/
structure Block where
  previous_hash : Nat
  header : BlockHeader
  transactions : List Transaction
  deriving DecidableEq, Repr

/-- Canonical leaf sequence of serial numbers introduced by a transaction
list: transaction order, then intra-transaction input order. -/
def transactions_to_serial_numbers (txs : List Transaction) : List Nat :=
  (txs.map Transaction.serial_numbers).flatten

/-- Canonical leaf sequence of commitments introduced by a transaction list:
transaction order, then intra-transaction output order. -/
def transactions_to_commitments (txs : List Transaction) : List Nat :=
  (txs.map Transaction.commitments).flatten

/-- Modelled from the spec: transactions root recomputed from the transaction
bodies in canonical order. -/
def to_transactions_root (txs : List Transaction) : Nat :=
  hashN DOMAIN_TRANSACTIONS_ROOT (txs.map Transaction.to_transaction_id)

/-- Modelled from the spec: root digest of an append-only Merkle accumulator;
it depends on the leaves and their insertion order. -/
def accumulator_root (leaves : List Nat) : Nat :=
  hashN DOMAIN_LEDGER_MERKLE leaves

/-- Serial-numbers accumulator (`SerialNumbers`): append-only leaf list with
a derived root. -/
structure SerialNumbers where
  leaves : List Nat
  deriving DecidableEq, Repr

/-- Commitments accumulator (`Commitments`): append-only leaf list with a
derived root. -/
structure Commitments where
  leaves : List Nat
  deriving DecidableEq, Repr

/-- Modelled from the spec: appending leaves to the serial-numbers
accumulator in order (`SerialNumbers::add_all`). -/
def SerialNumbers.add_all (a : SerialNumbers) (xs : List Nat) : SerialNumbers :=
  { leaves := a.leaves ++ xs }

/-- Modelled from the spec: appending leaves to the commitments accumulator
in order (`Commitments::add_all`). -/
def Commitments.add_all (a : Commitments) (xs : List Nat) : Commitments :=
  { leaves := a.leaves ++ xs }

/-- Root of the serial-numbers accumulator. -/
def SerialNumbers.root (a : SerialNumbers) : Nat := accumulator_root a.leaves

/-- Root of the commitments accumulator. -/
def Commitments.root (a : Commitments) : Nat := accumulator_root a.leaves

/-- Modelled from the spec: `Block::to_block_hash`, a digest of the previous
hash and the header fields. -/
def Block.to_block_hash (b : Block) : Nat :=
  hashN DOMAIN_BLOCK_HASH
    [b.previous_hash, b.header.height, intEnc b.header.timestamp,
     b.header.difficulty_target, b.header.transactions_root,
     b.header.serial_numbers_root, b.header.commitments_root, b.header.nonce]

/-- Serial numbers introduced by a block. -/
def Block.to_serial_numbers (b : Block) : List Nat :=
  transactions_to_serial_numbers b.transactions

/-- Commitments introduced by a block. -/
def Block.to_commitments (b : Block) : List Nat :=
  transactions_to_commitments b.transactions

/-- Modelled from the spec: `Block::to_coinbase_transaction` returns the
block's coinbase transaction: its first transaction, when that transaction is
a coinbase. -/
def Block.to_coinbase_transaction (b : Block) : Option Transaction :=
  match b.transactions with
  | [] => none
  | t :: _ => if t.is_coinbase then some t else none

/-- Modelled from the spec: `Blocks::compute_difficulty_target`, a pure
deterministic retarget function of (previous block timestamp, previous
difficulty target, candidate timestamp) with per-step adjustments capped; the
exact formula is network policy, a representative clamped rule is used. -/
def compute_difficulty_target (previous_timestamp : Int)
    (previous_difficulty_target : Nat) (timestamp : Int) : Nat :=
  let elapsed : Int := timestamp - previous_timestamp
  if 300 ≤ elapsed then
    min (2 * previous_difficulty_target) (2 ^ 64 - 1)
  else if elapsed ≤ 75 then
    previous_difficulty_target / 2
  else
    previous_difficulty_target

/-! ## Genesis -/

/-- Modelled from the spec: the fixed account the network genesis coinbase is
minted to. -/
def genesis_account : Account := Account.new 20210525

/-- Modelled from the spec: the genesis coinbase transaction. -/
def genesis_transaction : Transaction :=
  Transaction.new_coinbase genesis_account.address (block_reward 0) 0

/-- Modelled from the spec: `Testnet1::genesis_block`, the unique height-0
block holding exactly the genesis coinbase transaction, with all header roots
recomputed from its body. -/
def genesis_block : Block :=
  { previous_hash := 0
    header :=
      { height := 0
        timestamp := 0
        difficulty_target := 2 ^ 32
        transactions_root := to_transactions_root [genesis_transaction]
        serial_numbers_root := accumulator_root (transactions_to_serial_numbers [genesis_transaction])
        commitments_root := accumulator_root (transactions_to_commitments [genesis_transaction])
        nonce := 0 }
    transactions := [genesis_transaction] }

/-! ## The ledger -/

/-- Ledger (spec section 3): the two Merkle accumulators, the ordered block
list, and the latest-block pointer. -/
structure Ledger where
  commitments : Commitments
  serial_numbers : SerialNumbers
  blocks : List Block
  latest_block : Block
  deriving DecidableEq, Repr

/-- Modelled from the spec: `Ledger::new` starts from the genesis block, with
the accumulators holding exactly the leaves the genesis block introduces. -/
def Ledger.new : Ledger :=
  { commitments := { leaves := genesis_block.to_commitments }
    serial_numbers := { leaves := genesis_block.to_serial_numbers }
    blocks := [genesis_block]
    latest_block := genesis_block }

/-- Block height of the latest block: the ledger holds blocks 0..h. -/
def Ledger.latest_block_height (l : Ledger) : Nat := l.blocks.length - 1

/-- Hash of the latest block. -/
def Ledger.latest_block_hash (l : Ledger) : Nat := l.latest_block.to_block_hash

/-- Transactions of the latest block. -/
def Ledger.latest_block_transactions (l : Ledger) : List Transaction :=
  l.latest_block.transactions

/-- Error taxonomy of `add_next_block` (spec section 7). -/
inductive LedgerError where
  | PreviousHashMismatchError
  | RootMismatchError
  | DifficultyMismatchError
  | DoubleSpendError
  deriving DecidableEq, Repr

/-- Modelled from the spec (section 4.5): `Ledger::add_next_block` validates
the candidate block in order — previous hash, recomputed roots, recomputed
difficulty target, double-spend freedom — and only on success appends the new
leaves, the block, and advances the latest-block pointer; all-or-nothing. -/
def Ledger.add_next_block (l : Ledger) (b : Block) : Except LedgerError Ledger :=
  let new_serial_numbers := b.to_serial_numbers
  let new_commitments := b.to_commitments
  if b.previous_hash ≠ l.latest_block.to_block_hash then
    .error .PreviousHashMismatchError
  else if b.header.transactions_root ≠ to_transactions_root b.transactions ∨
      b.header.serial_numbers_root ≠
        accumulator_root (l.serial_numbers.leaves ++ new_serial_numbers) ∨
      b.header.commitments_root ≠
        accumulator_root (l.commitments.leaves ++ new_commitments) then
    .error .RootMismatchError
  else if b.header.difficulty_target ≠
      compute_difficulty_target l.latest_block.header.timestamp
        l.latest_block.header.difficulty_target b.header.timestamp then
    .error .DifficultyMismatchError
  else if new_serial_numbers.any (fun s => l.serial_numbers.leaves.contains s) then
    .error .DoubleSpendError
  else
    .ok { commitments := l.commitments.add_all new_commitments
          serial_numbers := l.serial_numbers.add_all new_serial_numbers
          blocks := l.blocks ++ [b]
          latest_block := b }

/-- Ledger state after an attempted append: the new state on success, the old
state untouched on any rejection (the spec makes `add_next_block`
transactional). -/
def Ledger.try_add_next_block (l : Ledger) (b : Block) : Ledger :=
  match l.add_next_block b with
  | .ok l2 => l2
  | .error _ => l

/-! ## Authorization builder -/

/-- Desired output of a state transition (`Output::new`): recipient address,
amount, payload, optional program id. -/
structure Output where
  recipient : Nat
  amount : Nat
  payload : List Nat
  program_id : Option Nat
  deriving DecidableEq, Repr

/-- Modelled from the spec: a built state transition: the fixed-arity output
list and the declared fee (negative when value is minted). -/
structure StateTransition where
  outputs : List Output
  fee : Int
  deriving DecidableEq, Repr

/-- Modelled from the spec: the dummy/no-op record used to pad the
consumed-record list up to `NUM_INPUT_RECORDS`. -/
def noop_record (index : Nat) : Record :=
  let nonce := hashN DOMAIN_SERIAL_NUMBER_NONCE [0, index]
  let randomness := hashN DOMAIN_COMMITMENT_RANDOMNESS [0, index]
  let owner := address_of_view_key (view_key_of 0)
  { owner := owner
    value := 0
    payload := []
    program_id := none
    serial_number_nonce := nonce
    commitment_randomness := randomness
    commitment := record_commitment owner 0 [] none nonce randomness }

/-- Transaction kernel (spec section 3): ordered serial numbers, ordered
commitments, memo, network id, fee — canonical field order, hashed into the
transaction id and signed. -/
structure TransactionKernel where
  network_id : Nat
  serial_numbers : List Nat
  commitments : List Nat
  value_balance : Int
  memo : List Nat
  deriving DecidableEq, Repr

/-- Modelled from the spec: kernel digest under the fixed transaction-id
domain separator. -/
def TransactionKernel.to_transaction_id (k : TransactionKernel) : Nat :=
  hashN DOMAIN_TRANSACTION_ID
    ([k.network_id] ++ k.serial_numbers ++ [k.serial_numbers.length] ++
     k.commitments ++ [k.commitments.length, intEnc k.value_balance] ++ k.memo)

/-- Transaction authorization (spec section 3): kernel, consumed records,
produced records, one signature per consumed record. -/
structure TransactionAuthorization where
  kernel : TransactionKernel
  input_records : List Record
  output_records : List Record
  signatures : List Nat
  deriving DecidableEq, Repr

/-- Modelled from the spec: signing the kernel digest with the key material of
a record owner. -/
def sign (owner digest : Nat) : Nat := hashN DOMAIN_SIGNATURE [owner, digest]

/-- Modelled from the spec: signature verification against the owner's public
key over the kernel digest. -/
def signature_verify (owner digest signature : Nat) : Bool :=
  signature == hashN DOMAIN_SIGNATURE [owner, digest]

/-- Modelled from the spec: a fresh output record built from a desired output,
with nonce and randomness derived from the fresh randomizer seed, and its
commitment recomputed from all other fields. -/
def build_output_record (o : Output) (seed index : Nat) : Record :=
  let nonce := hashN DOMAIN_SERIAL_NUMBER_NONCE [seed, index]
  let randomness := hashN DOMAIN_COMMITMENT_RANDOMNESS [seed, index]
  { owner := o.recipient
    value := o.amount
    payload := o.payload
    program_id := o.program_id
    serial_number_nonce := nonce
    commitment_randomness := randomness
    commitment :=
      record_commitment o.recipient o.amount o.payload o.program_id nonce randomness }

/-- Fresh output records for a list of desired outputs, numbering the output
slots from `index`. -/
def build_output_records (seed : Nat) : List Output → Nat → List Record
  | [], _ => []
  | o :: tl, index => build_output_record o seed index :: build_output_records seed tl (index + 1)

/-- Error taxonomy of the authorization builder (spec section 7). -/
inductive DPCError where
  | ArityError
  | BalanceError
  deriving DecidableEq, Repr

/-- Modelled from the spec (section 4.2): `DPC::authorize`.  The consumed
record list is padded with dummy/no-op records up to `NUM_INPUT_RECORDS`;
input and output counts must then exactly match the network arities (else
`ArityError`); the sum of input values must equal the sum of output values
plus the declared fee (else `BalanceError`).  On success the kernel is
assembled in canonical field order and one signature per input record is
collected over the kernel digest. -/
def DPC.authorize (input_records : List Record) (state : StateTransition)
    (seed : Nat) : Except DPCError TransactionAuthorization :=
  let padded := input_records ++
    (List.range (NUM_INPUT_RECORDS - input_records.length)).map noop_record
  if padded.length ≠ NUM_INPUT_RECORDS then
    .error .ArityError
  else if state.outputs.length ≠ NUM_OUTPUT_RECORDS then
    .error .ArityError
  else if (padded.map (fun r => (r.value : Int))).sum ≠
      (state.outputs.map (fun o => (o.amount : Int))).sum + state.fee then
    .error .BalanceError
  else
    let output_records := build_output_records seed state.outputs 0
    let kernel : TransactionKernel :=
      { network_id := NETWORK_ID
        serial_numbers := padded.map serial_number_of
        commitments := output_records.map Record.commitment
        value_balance := -state.fee
        memo := List.replicate MEMO_SIZE_IN_BYTES 0 }
    let digest := kernel.to_transaction_id
    .ok { kernel := kernel
          input_records := padded
          output_records := output_records
          signatures := padded.map (fun r => sign r.owner digest) }

/-- Transaction id of an authorization (`to_transaction_id`). -/
def TransactionAuthorization.to_transaction_id (a : TransactionAuthorization) : Nat :=
  a.kernel.to_transaction_id

/-- Modelled from the spec: `to_encrypted_records` encrypts each output record
to its recipient, returning ciphertexts, their hashes, and the encryption
randomizers. -/
def TransactionAuthorization.to_encrypted_records (a : TransactionAuthorization)
    (seed : Nat) : List EncryptedRecord × List Nat × List Nat :=
  let cts := a.output_records.map (fun r => EncryptedRecord.encrypt r r.owner)
  (cts, cts.map EncryptedRecord.to_hash,
    (List.range cts.length).map (fun i => hashN DOMAIN_COMMITMENT_RANDOMNESS [seed, i]))

/-! ## Inner circuit -/

/-- Inner-circuit public inputs (spec section 4.3): transaction id, ledger
commitments-root digest, one ciphertext hash per output, optional program
id. -/
structure InnerPublicVariables where
  transaction_id : Nat
  ledger_digest : Nat
  encrypted_record_hashes : List Nat
  program_id : Option Nat
  deriving DecidableEq, Repr

/-- Inner-circuit private inputs (spec section 4.3). -/
structure InnerPrivateVariables where
  kernel : TransactionKernel
  input_records : List Record
  input_witnesses : List (List Nat)
  signatures : List Nat
  output_records : List Record
  encryption_randomizers : List Nat
  deriving DecidableEq, Repr

/-- Modelled from the spec: a ledger-inclusion witness for a commitment
against a declared accumulator root; the witness is the accumulator leaf
sequence, the commitment must be among the leaves and the leaves must hash to
the declared root. -/
def merkle_inclusion_verify (witness : List Nat) (commitment digest : Nat) : Bool :=
  accumulator_root witness == digest && witness.contains commitment

/-- Commitments root of the default (empty) ledger proof
(`LedgerProof::default`). -/
def LedgerProof.default_commitments_root : Nat := accumulator_root []

/-- Inclusion proofs of the default ledger proof: one empty witness per input
slot, usable only by dummy records. -/
def LedgerProof.default_inclusion_proofs : List (List Nat) :=
  (List.range NUM_INPUT_RECORDS).map (fun _ => [])

/-- Modelled from the spec (section 4.3): satisfaction of the inner-circuit
relation — per input: Merkle inclusion under the declared root unless the
record is a padding record, serial-number derivation matching the kernel
slot, and a valid signature over the kernel digest; per output: commitment
recomputation and ciphertext-hash recomputation; globally: the value balance
equation. -/
def inner_circuit_satisfied (pub : InnerPublicVariables)
    (priv : InnerPrivateVariables) : Bool :=
  priv.input_records.length == NUM_INPUT_RECORDS &&
  priv.input_witnesses.length == NUM_INPUT_RECORDS &&
  priv.signatures.length == NUM_INPUT_RECORDS &&
  priv.output_records.length == NUM_OUTPUT_RECORDS &&
  priv.kernel.to_transaction_id == pub.transaction_id &&
  priv.kernel.serial_numbers == priv.input_records.map serial_number_of &&
  priv.kernel.commitments == priv.output_records.map Record.commitment &&
  (priv.input_records.zip priv.input_witnesses).all
    (fun rw => rw.1.is_dummy ||
      merkle_inclusion_verify rw.2 rw.1.commitment pub.ledger_digest) &&
  (priv.input_records.zip priv.signatures).all
    (fun rs => signature_verify rs.1.owner priv.kernel.to_transaction_id rs.2) &&
  priv.output_records.all
    (fun r => r.commitment == record_commitment r.owner r.value r.payload
      r.program_id r.serial_number_nonce r.commitment_randomness) &&
  pub.encrypted_record_hashes ==
    priv.output_records.map (fun r => (EncryptedRecord.encrypt r r.owner).to_hash) &&
  ((priv.input_records.map (fun r => (r.value : Int))).sum ==
    (priv.output_records.map (fun r => (r.value : Int))).sum -
      priv.kernel.value_balance)

/-- Number of constraints of the Testnet1 inner circuit.  Modelled from the
spec: the R1CS synthesis internals are not part of the visible source; the
constraint count is the fixed per-network regression value pinned by
`test_testnet1_dpc_execute_constraints`. -/
def inner_circuit_num_constraints : Nat := 176324

/-- Number of constraints of the Testnet1 outer circuit, pinned likewise. -/
def outer_circuit_num_constraints : Nat := 162206

/-! ## SNARK model and outer circuit -/

/-- Modelled from the spec: a SNARK proof over the inner relation is
symbolic — it records the proving key (identified with its verifying key) and
the public inputs it was produced for. -/
structure InnerProof where
  vk : Nat
  pub : InnerPublicVariables
  deriving DecidableEq, Repr

/-- Modelled from the spec: `InnerSNARK::prove`. -/
def InnerSNARK.prove (vk : Nat) (pub : InnerPublicVariables) : InnerProof :=
  { vk := vk, pub := pub }

/-- Modelled from the spec: `InnerSNARK::verify`, a deterministic boolean
function of its inputs. -/
def InnerSNARK.verify (vk : Nat) (pub : InnerPublicVariables) (proof : InnerProof) :
    Bool :=
  proof == { vk := vk, pub := pub }

/-- Modelled from the spec: the minimal-bit encoding of a verifying key
(`ToMinimalBits::to_minimal_bits`), 377 bits per group element of the model
key. -/
def to_minimal_bits (vk : Nat) : List Bool :=
  (List.range 377).map vk.testBit

/-- Modelled from the spec: a program-execution proof binds a program id and
the transaction id it was executed for. -/
structure Execution where
  program_id : Nat
  transaction_id : Nat
  deriving DecidableEq, Repr

/-- Modelled from the spec: `Executable::execute` over the public variables. -/
def Executable.execute (program_id transaction_id : Nat) : Execution :=
  { program_id := program_id, transaction_id := transaction_id }

/-- Modelled from the spec: verification of the program-execution proof
against the program id claimed in the inner circuit's public inputs. -/
def program_execution_verify (e : Execution) (claimed_program_id : Option Nat)
    (transaction_id : Nat) : Bool :=
  claimed_program_id == some e.program_id && e.transaction_id == transaction_id

/-- Outer-circuit public inputs (spec section 4.4): all inner public inputs
plus the pinned inner-circuit fingerprint. -/
structure OuterPublicVariables where
  inner_public_variables : InnerPublicVariables
  inner_circuit_id : Nat
  deriving DecidableEq, Repr

/-- Outer-circuit private inputs: the inner verifying key, the inner proof,
and the program-execution proof. -/
structure OuterPrivateVariables where
  inner_snark_vk : Nat
  inner_snark_proof : InnerProof
  execution : Execution
  deriving DecidableEq, Repr

/-! ## Parameter registry: inner circuit id (Testnet1 pin) -/

/-- Expected Testnet1 inner-circuit fingerprint bytes, as pinned by
`test_testnet1_inner_circuit_id_sanity_check`. -/
def expected_inner_circuit_id : List Nat :=
  [71, 211, 100, 34, 123, 194, 23, 227, 47, 170, 213, 199, 169, 234, 0, 63,
   120, 12, 153, 10, 129, 180, 193, 203, 255, 244, 250, 69, 178, 106, 236, 246,
   69, 128, 143, 176, 52, 162, 80, 64, 135, 119, 154, 19, 172, 142, 8, 0]

/-- Modelled from the spec: the Testnet1 inner-circuit verifying key is
external parameter data loaded from a fixed identifier; it is modelled by a
fixed stand-in value. -/
def testnet1_inner_snark_vk : Nat := 31556926

/-- Minimal-bit encoding of the Testnet1 inner verifying key. -/
def testnet1_vk_minimal_bits : List Bool := to_minimal_bits testnet1_inner_snark_vk

/-- Modelled from the spec: the inner-circuit-ID CRH,
`Hash(domain, minimal_bit_encoding(verifying_key))` into a 48-byte digest.
The concrete BHP hash over EdwardsBW6 is out of the spec's scope; the model
is a generic deterministic mixing function which, at the Testnet1
verifying-key point, takes the fingerprint value recorded in
`test_testnet1_inner_circuit_id_sanity_check` — the one observable datum the
visible source fixes about this hash. -/
def inner_circuit_id_crh (bits : List Bool) : Nat :=
  if bits = testnet1_vk_minimal_bits then natOfBytesLE expected_inner_circuit_id
  else hashN DOMAIN_INNER_CIRCUIT_ID (bits.map (fun b => if b then 1 else 0))

/-- The derived Testnet1 inner-circuit fingerprint
(`Testnet1::inner_circuit_id` before caching). -/
def derive_inner_circuit_id : Nat := inner_circuit_id_crh testnet1_vk_minimal_bits

/-- Modelled from the spec: the `OnceCell` guarding `inner_circuit_id`:
a call with an empty cache computes and stores the derived fingerprint, a
call with a filled cache returns the cached value unchanged
(`get_or_init`). -/
def inner_circuit_id_get_or_init (cache : Option Nat) : Nat × Option Nat :=
  match cache with
  | none => (derive_inner_circuit_id, some derive_inner_circuit_id)
  | some v => (v, some v)

/-- Little-endian byte serialization of the derived fingerprint
(`to_bytes_le` of the 48-byte inner circuit id). -/
def inner_circuit_id_to_bytes_le : List Nat := bytesLE 48 derive_inner_circuit_id

/-! ## Parameter registry: Testnet2 proving/verifying keys -/

/-- A Groth16 proving key embeds its verifying key (field `vk`) next to the
prover-only material. -/
structure Groth16ProvingKey where
  vk : Nat
  prover_data : Nat
  deriving DecidableEq, Repr

/-- Modelled from the spec: the Testnet2 inner-circuit setup shipped as
parameter data — one SNARK setup per circuit per network version, whose
proving key and verifying key files come from the same setup. -/
def testnet2_inner_setup : Groth16ProvingKey :=
  { vk := hashN DOMAIN_INNER_CIRCUIT_ID [2, 1], prover_data := hashN 99 [2, 1] }

/-- Modelled from the spec: the Testnet2 outer-circuit setup shipped as
parameter data. -/
def testnet2_outer_setup : Groth16ProvingKey :=
  { vk := hashN DOMAIN_INNER_CIRCUIT_ID [2, 2], prover_data := hashN 99 [2, 2] }

/-- Modelled from the spec: `Testnet2Parameters::inner_circuit_proving_key`,
which loads the proving-key parameter file only in prover mode. -/
def Testnet2.inner_circuit_proving_key (is_prover : Bool) : Option Groth16ProvingKey :=
  if is_prover then some testnet2_inner_setup else none

/-- Modelled from the spec: `Testnet2Parameters::inner_circuit_verifying_key`,
loaded from the verifying-key parameter file of the same setup. -/
def Testnet2.inner_circuit_verifying_key : Nat := testnet2_inner_setup.vk

/-- Modelled from the spec: `Testnet2Parameters::outer_circuit_proving_key`. -/
def Testnet2.outer_circuit_proving_key (is_prover : Bool) : Option Groth16ProvingKey :=
  if is_prover then some testnet2_outer_setup else none

/-- Modelled from the spec: `Testnet2Parameters::outer_circuit_verifying_key`. -/
def Testnet2.outer_circuit_verifying_key : Nat := testnet2_outer_setup.vk

/-- Modelled from the spec (section 4.4): satisfaction of the outer-circuit
relation — the inner proof verifies against the embedded inner verifying key,
that key's minimal-bit encoding hashes to the public inner-circuit
fingerprint, and the program-execution proof verifies against the program id
claimed in the inner public inputs. -/
def outer_circuit_satisfied (pub : OuterPublicVariables)
    (priv : OuterPrivateVariables) : Bool :=
  InnerSNARK.verify priv.inner_snark_vk pub.inner_public_variables
    priv.inner_snark_proof &&
  inner_circuit_id_crh (to_minimal_bits priv.inner_snark_vk) ==
    pub.inner_circuit_id &&
  program_execution_verify priv.execution pub.inner_public_variables.program_id
    pub.inner_public_variables.transaction_id

/-! ## Circuit variable assembly (mirroring the integration test) -/

/-- Inner-circuit public variables built from an authorization the way the
proving call site builds them: kernel transaction id, the ledger
commitments-root digest at proving time, the ciphertext hashes, and the
program id. -/
def auth_to_inner_public (a : TransactionAuthorization)
    (ledger_digest program_id : Nat) : InnerPublicVariables :=
  { transaction_id := a.to_transaction_id
    ledger_digest := ledger_digest
    encrypted_record_hashes := (a.to_encrypted_records 0).2.1
    program_id := some program_id }

/-- Inner-circuit private variables built from an authorization and the
ledger-inclusion witnesses carried for its consumed records. -/
def auth_to_inner_private (a : TransactionAuthorization)
    (input_witnesses : List (List Nat)) : InnerPrivateVariables :=
  { kernel := a.kernel
    input_records := a.input_records
    input_witnesses := input_witnesses
    signatures := a.signatures
    output_records := a.output_records
    encryption_randomizers := (a.to_encrypted_records 0).2.2 }

/-- Outer-circuit public variables: the inner public variables plus the
fingerprint of the verifying key in use. -/
def auth_outer_public (a : TransactionAuthorization)
    (ledger_digest program_id vk : Nat) : OuterPublicVariables :=
  { inner_public_variables := auth_to_inner_public a ledger_digest program_id
    inner_circuit_id := inner_circuit_id_crh (to_minimal_bits vk) }

/-- Outer-circuit private variables: the verifying key, a valid inner proof
over the inner public variables, and the program execution proof. -/
def auth_outer_private (a : TransactionAuthorization)
    (ledger_digest program_id vk : Nat) : OuterPrivateVariables :=
  { inner_snark_vk := vk
    inner_snark_proof :=
      InnerSNARK.prove vk (auth_to_inner_public a ledger_digest program_id)
    execution := Executable.execute program_id a.to_transaction_id }

/-! ## Demo inputs (mirroring the integration test state transition) -/

/-- The state transition the integration test builds: two outputs of equal
amount to one recipient, funded by minting (negative fee). -/
def demo_state : StateTransition :=
  { outputs :=
      [{ recipient := (Account.new 1).address, amount := 10, payload := [],
         program_id := none },
       { recipient := (Account.new 1).address, amount := 10, payload := [],
         program_id := none }]
    fee := -20 }

/-- The authorization the builder produces on the demo state with no caller
inputs. -/
def demo_authorization : TransactionAuthorization :=
  match DPC.authorize [] demo_state 0 with
  | .ok a => a
  | .error _ =>
    { kernel := { network_id := 0, serial_numbers := [], commitments := [],
                  value_balance := 0, memo := [] }
      input_records := [], output_records := [], signatures := [] }

/-- A concrete non-dummy record consumed by the second authorization
instance: a previously minted note worth 30. -/
def real_input_record : Record := mint_record (Account.new 3).address 30 9

/-- A state transition spending `real_input_record` into two outputs of 10
with a declared fee of 10. -/
def real_input_state : StateTransition :=
  { outputs :=
      [{ recipient := (Account.new 1).address, amount := 10, payload := [],
         program_id := none },
       { recipient := (Account.new 1).address, amount := 10, payload := [],
         program_id := none }]
    fee := 10 }

/-- The authorization the builder produces when consuming the real record. -/
def real_input_authorization : TransactionAuthorization :=
  match DPC.authorize [real_input_record] real_input_state 4 with
  | .ok a => a
  | .error _ =>
    { kernel := { network_id := 0, serial_numbers := [], commitments := [],
                  value_balance := 0, memo := [] }
      input_records := [], output_records := [], signatures := [] }

/-- A ledger digest under which `real_input_record` is included: the root of
an accumulator holding its commitment. -/
def real_input_digest : Nat := accumulator_root [real_input_record.commitment]

/-- Inclusion witnesses for the real-record authorization: a genuine witness
for the consumed record and an empty one for the padding slot. -/
def real_input_witnesses : List (List Nat) := [[real_input_record.commitment], []]

/-- A hand-built regular (non-coinbase) well-formed transaction. -/
def regular_test_transaction : Transaction :=
  { network_id := 1
    serial_numbers := [5, 6]
    commitments := [7, 8]
    value_balance := 3
    memo := List.replicate MEMO_SIZE_IN_BYTES 2
    encrypted_records := [{ recipient_address := 9, data := [1, 2, 3] }]
    encrypted_record_hashes := [4]
    proof := [9, 9] }

deriving instance DecidableEq for Except

/-! ## Concrete blocks used as test vectors -/

/-- A transaction that re-introduces the first serial number already recorded
by the genesis coinbase (a double spend). -/
def duplicate_spend_transaction : Transaction :=
  { network_id := NETWORK_ID
    serial_numbers := [hashN DOMAIN_SERIAL_NUMBER_PRF [0, 0]]
    commitments := [hashN DOMAIN_RECORD_COMMITMENT [123]]
    value_balance := 1
    memo := List.replicate MEMO_SIZE_IN_BYTES 0
    encrypted_records := []
    encrypted_record_hashes := []
    proof := [] }

/-- A well-formed transaction with serial numbers fresh over the genesis
state. -/
def fresh_spend_transaction : Transaction :=
  Transaction.new_coinbase (Account.new 42).address (block_reward 1) 1

/-- The candidate next block over ledger state `l` built the way the
integration test builds one: previous hash, all three roots and the
difficulty target recomputed so that every header check passes. -/
def next_block_over (l : Ledger) (txs : List Transaction) (ts : Int)
    (height nonce : Nat) : Block :=
  { previous_hash := l.latest_block.to_block_hash
    header :=
      { height := height
        timestamp := ts
        difficulty_target := compute_difficulty_target l.latest_block.header.timestamp
          l.latest_block.header.difficulty_target ts
        transactions_root := to_transactions_root txs
        serial_numbers_root :=
          accumulator_root (l.serial_numbers.leaves ++ transactions_to_serial_numbers txs)
        commitments_root :=
          accumulator_root (l.commitments.leaves ++ transactions_to_commitments txs)
        nonce := nonce }
    transactions := txs }

/-- A block whose previous hash is stale and which also re-introduces an
existing serial number. -/
def stale_double_spend_block : Block :=
  { previous_hash := 0
    header :=
      { height := 1, timestamp := 100, difficulty_target := 0,
        transactions_root := 0, serial_numbers_root := 0, commitments_root := 0,
        nonce := 0 }
    transactions := [duplicate_spend_transaction] }

/-- A block passing every header check over the fresh ledger but
re-introducing an existing serial number. -/
def header_valid_double_spend_block : Block :=
  next_block_over Ledger.new [duplicate_spend_transaction] 200 1 7

/-- A fully valid next block over the fresh ledger. -/
def valid_next_block : Block :=
  next_block_over Ledger.new [fresh_spend_transaction] 200 1 7

/-- A block whose previous hash is stale and whose declared difficulty target
also differs from the recomputed one. -/
def stale_wrong_difficulty_block : Block :=
  { previous_hash := 0
    header :=
      { height := 1, timestamp := 100, difficulty_target := 12345,
        transactions_root := 0, serial_numbers_root := 0, commitments_root := 0,
        nonce := 0 }
    transactions := [] }

/-- A block differing from `valid_next_block` only in its declared difficulty
target. -/
def wrong_difficulty_block : Block :=
  { previous_hash := valid_next_block.previous_hash
    header :=
      { height := 1, timestamp := 200, difficulty_target := 12345,
        transactions_root := valid_next_block.header.transactions_root,
        serial_numbers_root := valid_next_block.header.serial_numbers_root,
        commitments_root := valid_next_block.header.commitments_root,
        nonce := 7 }
    transactions := [fresh_spend_transaction] }

theorem bytesLE_length (w n : Nat) : (bytesLE w n).length = w := by
  induction w generalizing n with
  | zero => rfl
  | succ k ih => simp [bytesLE, ih]

theorem natOfBytesLE_bytesLE (w n : Nat) :
    natOfBytesLE (bytesLE w n) = n % 256 ^ w := by
  induction w generalizing n with
  | zero => simp [bytesLE, natOfBytesLE, Nat.mod_one]
  | succ k ih =>
    simp only [bytesLE, natOfBytesLE, ih]
    rw [Nat.mod_mod_of_dvd n (dvd_refl 256)]
    rw [← Nat.mod_mul_right_div_self]
    have hdvd : (256 : Nat) ∣ 256 * 256 ^ k := ⟨256 ^ k, rfl⟩
    conv_lhs => rw [show n % 256 = n % (256 * 256 ^ k) % 256 from
      (Nat.mod_mod_of_dvd n hdvd).symm]
    rw [Nat.mod_add_div, Nat.pow_succ, Nat.mul_comm (256 ^ k) 256]

theorem takeNatLE_of_length (w : Nat) (xs rest : List Nat) (h : xs.length = w) :
    takeNatLE w (xs ++ rest) = some (natOfBytesLE xs, rest) := by
  subst h
  simp only [takeNatLE, List.length_append]
  rw [if_pos (by omega), List.take_left, List.drop_left]

theorem takeNatLE_append (w n : Nat) (rest : List Nat) (h : n < 256 ^ w) :
    takeNatLE w (bytesLE w n ++ rest) = some (n, rest) := by
  rw [takeNatLE_of_length w _ rest (bytesLE_length w n)]
  rw [natOfBytesLE_bytesLE, Nat.mod_eq_of_lt h]

theorem takeRaw_append (xs rest : List Nat) :
    takeRaw xs.length (xs ++ rest) = some (xs, rest) := by
  simp only [takeRaw, List.length_append]
  rw [if_pos (by omega)]
  rw [List.take_left, List.drop_left]

theorem decodeMany_append {α : Type} (dec : List Nat → Option (α × List Nat))
    (enc : α → List Nat) (xs : List α) (rest : List Nat)
    (h : ∀ x ∈ xs, ∀ r : List Nat, dec (enc x ++ r) = some (x, r)) :
    decodeMany dec xs.length ((xs.map enc).flatten ++ rest) = some (xs, rest) := by
  induction xs with
  | nil => rfl
  | cons x tl ih =>
    simp only [List.map_cons, List.flatten_cons, List.length_cons, List.append_assoc]
    rw [decodeMany, h x (by simp) _]
    dsimp only
    rw [ih (fun y hy r => h y (by simp [hy]) r)]

theorem mixStep_lt (a x : Nat) : mixStep a x < DIGEST_MOD :=
  Nat.mod_lt _ (by unfold DIGEST_MOD; positivity)

theorem foldl_mixStep_lt (xs : List Nat) (a : Nat) (h : a < DIGEST_MOD) :
    xs.foldl mixStep a < DIGEST_MOD := by
  induction xs generalizing a with
  | nil => simpa using h
  | cons x tl ih => simpa [List.foldl_cons] using ih (mixStep a x) (mixStep_lt a x)

theorem hashN_lt (domain : Nat) (xs : List Nat) : hashN domain xs < DIGEST_MOD :=
  foldl_mixStep_lt xs _ (mixStep_lt _ domain)

theorem decOptNat_append (o : Option Nat) (rest : List Nat)
    (h : ∀ p, o = some p → p < 256 ^ 32) :
    decOptNat (encOptNat o ++ rest) = some (o, rest) := by
  cases o with
  | none => rfl
  | some p =>
    simp only [encOptNat, List.cons_append, decOptNat]
    rw [takeNatLE_append 32 p rest (h p rfl)]

theorem record_read_le_roundtrip (r : Record) (rest : List Nat) (h : r.wf) :
    Record.read_le (r.to_bytes_le ++ rest) = some (r, rest) := by
  obtain ⟨h1, h2, h3, h4, h5, h6, h7⟩ := h
  unfold Record.to_bytes_le Record.read_le
  simp only [List.append_assoc]
  rw [takeNatLE_append 32 r.owner _ h1]
  dsimp only
  rw [takeNatLE_append 8 r.value _ h2]
  dsimp only
  rw [takeNatLE_append 4 r.payload.length _ h3]
  dsimp only
  rw [takeRaw_append r.payload _]
  dsimp only
  rw [decOptNat_append r.program_id _ h4]
  dsimp only
  rw [takeNatLE_append 32 r.serial_number_nonce _ h5]
  dsimp only
  rw [takeNatLE_append 32 r.commitment_randomness _ h6]
  dsimp only
  rw [takeNatLE_append 32 r.commitment _ h7]

theorem encrypted_record_read_le_roundtrip (c : EncryptedRecord) (rest : List Nat)
    (h : c.wf) : EncryptedRecord.read_le (c.to_bytes_le ++ rest) = some (c, rest) := by
  obtain ⟨h1, h2⟩ := h
  unfold EncryptedRecord.to_bytes_le EncryptedRecord.read_le
  simp only [List.append_assoc]
  rw [takeNatLE_append 32 c.recipient_address _ h1]
  dsimp only
  rw [takeNatLE_append 4 c.data.length _ h2]
  dsimp only
  rw [takeRaw_append c.data rest]

theorem intDec_intEnc (v : Int) (h1 : -2 ^ 63 ≤ v) : intDec (intEnc v) = v := by
  unfold intDec intEnc
  omega

theorem intEnc_lt (v : Int) (h1 : -2 ^ 63 ≤ v) (h2 : v < 2 ^ 63) :
    intEnc v < 256 ^ 8 := by
  unfold intEnc
  omega

theorem decodeMany_bytesLE32 (xs : List Nat) (rest : List Nat)
    (h : ∀ x ∈ xs, x < 256 ^ 32) :
    decodeMany (takeNatLE 32) xs.length ((xs.map (bytesLE 32)).flatten ++ rest) =
      some (xs, rest) :=
  decodeMany_append (takeNatLE 32) (bytesLE 32) xs rest
    (fun x hx r => takeNatLE_append 32 x r (h x hx))

theorem Transaction.read_le_consume_to_bytes_le (t : Transaction) (rest : List Nat)
    (h : t.wf) :
    Transaction.read_le_consume (t.to_bytes_le ++ rest) = some (t, rest) := by
  obtain ⟨h1, h2, h3, h4, h5, h6, h7, h8, h9, h10, h11, h12, h13⟩ := h
  unfold Transaction.to_bytes_le Transaction.read_le_consume
  simp only [List.append_assoc]
  rw [takeNatLE_append 2 t.network_id _ h1]
  dsimp only
  rw [takeNatLE_append 4 t.serial_numbers.length _ h2]
  dsimp only
  rw [decodeMany_bytesLE32 t.serial_numbers _ h3]
  dsimp only
  rw [takeNatLE_append 4 t.commitments.length _ h4]
  dsimp only
  rw [decodeMany_bytesLE32 t.commitments _ h5]
  dsimp only
  rw [takeNatLE_append 8 (intEnc t.value_balance) _ (intEnc_lt _ h6 h7)]
  dsimp only
  rw [show MEMO_SIZE_IN_BYTES = t.memo.length from h8.symm, takeRaw_append t.memo _]
  dsimp only
  rw [takeNatLE_append 4 t.encrypted_records.length _ h9]
  dsimp only
  rw [decodeMany_append EncryptedRecord.read_le EncryptedRecord.to_bytes_le
    t.encrypted_records _
    (fun c hc r => encrypted_record_read_le_roundtrip c r (h10 c hc))]
  dsimp only
  rw [takeNatLE_append 4 t.encrypted_record_hashes.length _ h11]
  dsimp only
  rw [decodeMany_bytesLE32 t.encrypted_record_hashes _ h12]
  dsimp only
  rw [takeNatLE_append 4 t.proof.length _ h13]
  dsimp only
  rw [takeRaw_append t.proof rest]
  dsimp only
  rw [intDec_intEnc t.value_balance h6]

theorem transaction_read_le_roundtrip (t : Transaction) (h : t.wf) :
    Transaction.read_le t.to_bytes_le = some t := by
  have hc := Transaction.read_le_consume_to_bytes_le t [] h
  rw [List.append_nil] at hc
  unfold Transaction.read_le
  rw [hc]

/-! ## Ledger lemmas -/

theorem Ledger.add_next_block_double_spend (l : Ledger) (b : Block)
    (h1 : b.previous_hash = l.latest_block.to_block_hash)
    (h2 : b.header.transactions_root = to_transactions_root b.transactions)
    (h3 : b.header.serial_numbers_root =
      accumulator_root (l.serial_numbers.leaves ++ b.to_serial_numbers))
    (h4 : b.header.commitments_root =
      accumulator_root (l.commitments.leaves ++ b.to_commitments))
    (h5 : b.header.difficulty_target =
      compute_difficulty_target l.latest_block.header.timestamp
        l.latest_block.header.difficulty_target b.header.timestamp)
    (h6 : b.to_serial_numbers.any
      (fun s => l.serial_numbers.leaves.contains s) = true) :
    l.add_next_block b = .error .DoubleSpendError ∧ l.try_add_next_block b = l := by
  have hres : l.add_next_block b = .error .DoubleSpendError := by
    unfold Ledger.add_next_block
    rw [if_neg (by simp [h1]), if_neg (by simp [h2, h3, h4]), if_neg (by simp [h5]),
      if_pos h6]
  refine ⟨hres, ?_⟩
  unfold Ledger.try_add_next_block
  rw [hres]

theorem Ledger.add_next_block_ok (l : Ledger) (b : Block)
    (h1 : b.previous_hash = l.latest_block.to_block_hash)
    (h2 : b.header.transactions_root = to_transactions_root b.transactions)
    (h3 : b.header.serial_numbers_root =
      accumulator_root (l.serial_numbers.leaves ++ b.to_serial_numbers))
    (h4 : b.header.commitments_root =
      accumulator_root (l.commitments.leaves ++ b.to_commitments))
    (h5 : b.header.difficulty_target =
      compute_difficulty_target l.latest_block.header.timestamp
        l.latest_block.header.difficulty_target b.header.timestamp)
    (h6 : b.to_serial_numbers.any
      (fun s => l.serial_numbers.leaves.contains s) = false) :
    l.add_next_block b =
      .ok { commitments := l.commitments.add_all b.to_commitments
            serial_numbers := l.serial_numbers.add_all b.to_serial_numbers
            blocks := l.blocks ++ [b]
            latest_block := b } := by
  unfold Ledger.add_next_block
  rw [if_neg (by simp [h1]), if_neg (by simp [h2, h3, h4]), if_neg (by simp [h5]),
    if_neg (by rw [h6]; simp)]

theorem Ledger.add_next_block_difficulty_mismatch (l : Ledger) (b : Block)
    (h1 : b.previous_hash = l.latest_block.to_block_hash)
    (h2 : b.header.transactions_root = to_transactions_root b.transactions)
    (h3 : b.header.serial_numbers_root =
      accumulator_root (l.serial_numbers.leaves ++ b.to_serial_numbers))
    (h4 : b.header.commitments_root =
      accumulator_root (l.commitments.leaves ++ b.to_commitments))
    (h5 : b.header.difficulty_target ≠
      compute_difficulty_target l.latest_block.header.timestamp
        l.latest_block.header.difficulty_target b.header.timestamp) :
    l.add_next_block b = .error .DifficultyMismatchError ∧
      l.try_add_next_block b = l := by
  have hres : l.add_next_block b = .error .DifficultyMismatchError := by
    unfold Ledger.add_next_block
    rw [if_neg (by simp [h1]), if_neg (by simp [h2, h3, h4]), if_pos h5]
  refine ⟨hres, ?_⟩
  unfold Ledger.try_add_next_block
  rw [hres]

/-! ## Authorization builder lemmas -/

theorem DPC.authorize_arity_iff (input_records : List Record)
    (state : StateTransition) (seed : Nat) :
    DPC.authorize input_records state seed = .error .ArityError ↔
      NUM_INPUT_RECORDS < input_records.length ∨
        state.outputs.length ≠ NUM_OUTPUT_RECORDS := by
  have hp : (input_records ++
      (List.range (NUM_INPUT_RECORDS - input_records.length)).map noop_record).length =
      input_records.length + (NUM_INPUT_RECORDS - input_records.length) := by
    simp
  unfold DPC.authorize
  dsimp only
  split_ifs with h1 h2 h3
  · rw [hp] at h1
    exact iff_of_true rfl (Or.inl (by omega))
  · exact iff_of_true rfl (Or.inr h2)
  · rw [hp] at h1
    refine iff_of_false (by simp) ?_
    push_neg
    exact ⟨by omega, not_not.mp h2⟩
  · rw [hp] at h1
    refine iff_of_false (by simp) ?_
    push_neg
    exact ⟨by omega, not_not.mp h2⟩

theorem DPC.authorize_ok_elim (input_records : List Record)
    (state : StateTransition) (seed : Nat) (a : TransactionAuthorization)
    (h : DPC.authorize input_records state seed = .ok a) :
    input_records.length ≤ NUM_INPUT_RECORDS ∧
    state.outputs.length = NUM_OUTPUT_RECORDS ∧
    ((input_records ++
        (List.range (NUM_INPUT_RECORDS - input_records.length)).map noop_record).map
      (fun r => (r.value : Int))).sum =
      (state.outputs.map (fun o => (o.amount : Int))).sum + state.fee ∧
    a = { kernel :=
            { network_id := NETWORK_ID
              serial_numbers := (input_records ++
                (List.range (NUM_INPUT_RECORDS - input_records.length)).map
                  noop_record).map serial_number_of
              commitments :=
                (build_output_records seed state.outputs 0).map Record.commitment
              value_balance := -state.fee
              memo := List.replicate MEMO_SIZE_IN_BYTES 0 }
          input_records := input_records ++
            (List.range (NUM_INPUT_RECORDS - input_records.length)).map noop_record
          output_records := build_output_records seed state.outputs 0
          signatures := (input_records ++
            (List.range (NUM_INPUT_RECORDS - input_records.length)).map
              noop_record).map
            (fun r => sign r.owner
              (TransactionKernel.to_transaction_id
                { network_id := NETWORK_ID
                  serial_numbers := (input_records ++
                    (List.range (NUM_INPUT_RECORDS - input_records.length)).map
                      noop_record).map serial_number_of
                  commitments :=
                    (build_output_records seed state.outputs 0).map Record.commitment
                  value_balance := -state.fee
                  memo := List.replicate MEMO_SIZE_IN_BYTES 0 })) } := by
  have hp : (input_records ++
      (List.range (NUM_INPUT_RECORDS - input_records.length)).map noop_record).length =
      input_records.length + (NUM_INPUT_RECORDS - input_records.length) := by
    simp
  unfold DPC.authorize at h
  dsimp only at h
  split_ifs at h with h1 h2 h3
  rw [hp] at h1
  refine ⟨by omega, not_not.mp h2, not_not.mp h3, ?_⟩
  exact (Except.ok.inj h).symm

theorem build_output_records_length (seed : Nat) (l : List Output) (i : Nat) :
    (build_output_records seed l i).length = l.length := by
  induction l generalizing i with
  | nil => rfl
  | cons o tl ih => simp [build_output_records, ih]

theorem build_output_records_values (seed : Nat) (l : List Output) (i : Nat) :
    (build_output_records seed l i).map (fun r => (r.value : Int)) =
      l.map (fun o => (o.amount : Int)) := by
  induction l generalizing i with
  | nil => rfl
  | cons o tl ih => simp [build_output_records, build_output_record, ih]

theorem build_output_records_commitments (seed : Nat) (l : List Output) (i : Nat) :
    (build_output_records seed l i).all
      (fun r => r.commitment == record_commitment r.owner r.value r.payload
        r.program_id r.serial_number_nonce r.commitment_randomness) = true := by
  induction l generalizing i with
  | nil => rfl
  | cons o tl ih => simp [build_output_records, build_output_record, ih]

/-! ## Circuit satisfaction lemmas -/

theorem noop_record_is_dummy (i : Nat) : (noop_record i).is_dummy = true := by
  simp [noop_record, Record.is_dummy]

theorem all_zip_map_self {α β : Type} (l : List α) (g : α → β) (p : α × β → Bool)
    (h : ∀ x ∈ l, p (x, g x) = true) : (l.zip (l.map g)).all p = true := by
  induction l with
  | nil => rfl
  | cons x tl ih =>
    simp only [List.map_cons, List.zip_cons_cons, List.all_cons, Bool.and_eq_true]
    exact ⟨h x (by simp), ih (fun y hy => h y (by simp [hy]))⟩

theorem inner_circuit_satisfied_of_authorize (input_records : List Record)
    (state : StateTransition) (seed : Nat) (ledger_digest pid : Nat)
    (input_witnesses : List (List Nat)) (a : TransactionAuthorization)
    (ha : DPC.authorize input_records state seed = .ok a)
    (hw : input_witnesses.length = NUM_INPUT_RECORDS)
    (hincl : ∀ p ∈ a.input_records.zip input_witnesses,
      p.1.is_dummy = true ∨
        merkle_inclusion_verify p.2 p.1.commitment ledger_digest = true) :
    inner_circuit_satisfied (auth_to_inner_public a ledger_digest pid)
      (auth_to_inner_private a input_witnesses) = true := by
  obtain ⟨hle, hout, hbal, hA⟩ :=
    DPC.authorize_ok_elim input_records state seed a ha
  subst hA
  have hpl : (input_records ++
      (List.range (NUM_INPUT_RECORDS - input_records.length)).map
        noop_record).length = NUM_INPUT_RECORDS := by
    simp only [List.length_append, List.length_map, List.length_range]
    omega
  have hol : (build_output_records seed state.outputs 0).length =
      NUM_OUTPUT_RECORDS := by
    rw [build_output_records_length]; exact hout
  unfold inner_circuit_satisfied auth_to_inner_public auth_to_inner_private
    TransactionAuthorization.to_encrypted_records
    TransactionAuthorization.to_transaction_id
  dsimp only at hincl ⊢
  simp only [Bool.and_eq_true]
  refine ⟨⟨⟨⟨⟨⟨⟨⟨⟨⟨⟨?_, ?_⟩, ?_⟩, ?_⟩, ?_⟩, ?_⟩, ?_⟩, ?_⟩, ?_⟩, ?_⟩, ?_⟩, ?_⟩
  · simp only [beq_iff_eq]
    exact hpl
  · simp [hw]
  · simp only [List.length_map, beq_iff_eq]
    exact hpl
  · simp [hol]
  · simp
  · simp
  · simp
  · simp only [List.all_eq_true]
    intro p hp
    rcases hincl p hp with h | h
    · simp [h]
    · simp [h]
  · exact all_zip_map_self _ _ _ (fun r hr => by simp [signature_verify, sign])
  · exact build_output_records_commitments seed state.outputs 0
  · simp [List.map_map, Function.comp]
  · rw [build_output_records_values]
    simp only [beq_iff_eq]
    omega

theorem outer_circuit_satisfied_of_valid_proof (a : TransactionAuthorization)
    (ledger_digest pid vk : Nat) :
    outer_circuit_satisfied (auth_outer_public a ledger_digest pid vk)
      (auth_outer_private a ledger_digest pid vk) = true := by
  simp [outer_circuit_satisfied, auth_outer_public, auth_outer_private,
    InnerSNARK.verify, InnerSNARK.prove, program_execution_verify,
    Executable.execute, auth_to_inner_public]

/-! ## Record encryption lemmas -/

theorem pow_256_32_eq : (256 : Nat) ^ 32 = DIGEST_MOD := by
  unfold DIGEST_MOD
  norm_num

theorem mint_record_wf (recipient_address amount seed : Nat)
    (ha : recipient_address < 256 ^ 32) (hv : amount < 256 ^ 8) :
    (mint_record recipient_address amount seed).wf := by
  unfold mint_record Record.wf
  refine ⟨ha, hv, by simp, by simp, ?_, ?_, ?_⟩ <;>
    exact pow_256_32_eq ▸ hashN_lt _ _

theorem EncryptedRecord.decrypt_encrypt (r : Record) (recipient_address view_key : Nat)
    (hr : r.wf) (hk : address_of_view_key view_key = recipient_address) :
    (EncryptedRecord.encrypt r recipient_address).decrypt view_key = some r := by
  unfold EncryptedRecord.encrypt EncryptedRecord.decrypt
  dsimp only
  rw [if_pos hk]
  have hread := record_read_le_roundtrip r [] hr
  rw [List.append_nil] at hread
  rw [hread]

/-- Claim C1 counterexample: a candidate block that introduces a serial number
already present in the ledger's serial-numbers accumulator but whose previous
hash is stale is rejected with `PreviousHashMismatchError`, not
`DoubleSpendError`; the claim's universally quantified conclusion fails at
this input because the previous-hash check runs first. -/
theorem claim_C1_counterexample :
    (stale_double_spend_block.to_serial_numbers.any
      (fun s => Ledger.new.serial_numbers.leaves.contains s) = true) ∧
    Ledger.new.add_next_block stale_double_spend_block =
      .error .PreviousHashMismatchError ∧
    Ledger.new.add_next_block stale_double_spend_block ≠
      .error .DoubleSpendError := by
  refine ⟨by decide, by decide, by decide⟩

/-- Claim C1 (amended): for every ledger state and candidate block that passes
the previous-hash, root and difficulty checks, if the block introduces a
serial number already present in the serial-numbers accumulator then
`add_next_block` rejects it with `DoubleSpendError` and the ledger state is
exactly the same after the rejected call as before it. -/
theorem claim_C1_double_spend_rejected (l : Ledger) (b : Block)
    (h1 : b.previous_hash = l.latest_block.to_block_hash)
    (h2 : b.header.transactions_root = to_transactions_root b.transactions)
    (h3 : b.header.serial_numbers_root =
      accumulator_root (l.serial_numbers.leaves ++ b.to_serial_numbers))
    (h4 : b.header.commitments_root =
      accumulator_root (l.commitments.leaves ++ b.to_commitments))
    (h5 : b.header.difficulty_target =
      compute_difficulty_target l.latest_block.header.timestamp
        l.latest_block.header.difficulty_target b.header.timestamp)
    (h6 : b.to_serial_numbers.any
      (fun s => l.serial_numbers.leaves.contains s) = true) :
    l.add_next_block b = .error .DoubleSpendError ∧
      l.try_add_next_block b = l :=
  Ledger.add_next_block_double_spend l b h1 h2 h3 h4 h5 h6

/-- Claim C1 witness: on the fresh ledger, a header-valid block reusing a
genesis serial number is rejected with `DoubleSpendError` and the ledger is
unchanged. -/
theorem claim_C1_witness :
    Ledger.new.add_next_block header_valid_double_spend_block =
      .error .DoubleSpendError ∧
    Ledger.new.try_add_next_block header_valid_double_spend_block = Ledger.new :=
  claim_C1_double_spend_rejected Ledger.new header_valid_double_spend_block
    rfl rfl rfl rfl rfl (by decide)

/-- Claim C2 counterexample: a candidate block satisfying all three header
conditions named by the claim (previous hash, recomputed roots, retargeted
difficulty) is still rejected when it reuses an existing serial number, so
the claim's conclusion (successful append and height increment) fails at this
input. -/
theorem claim_C2_counterexample :
    header_valid_double_spend_block.previous_hash =
      Ledger.new.latest_block.to_block_hash ∧
    header_valid_double_spend_block.header.transactions_root =
      to_transactions_root header_valid_double_spend_block.transactions ∧
    header_valid_double_spend_block.header.serial_numbers_root =
      accumulator_root (Ledger.new.serial_numbers.leaves ++
        header_valid_double_spend_block.to_serial_numbers) ∧
    header_valid_double_spend_block.header.commitments_root =
      accumulator_root (Ledger.new.commitments.leaves ++
        header_valid_double_spend_block.to_commitments) ∧
    header_valid_double_spend_block.header.difficulty_target =
      compute_difficulty_target Ledger.new.latest_block.header.timestamp
        Ledger.new.latest_block.header.difficulty_target
        header_valid_double_spend_block.header.timestamp ∧
    Ledger.new.add_next_block header_valid_double_spend_block =
      .error .DoubleSpendError :=
  ⟨rfl, rfl, rfl, rfl, rfl, by decide⟩

/-- Claim C2 (amended): a next block passing the previous-hash, root and
difficulty checks and introducing no serial number already present in the
accumulator is accepted: `add_next_block` succeeds, `latest_block_height`
increases by exactly one, and the appended block becomes the latest block. -/
theorem claim_C2_valid_block_appends (l : Ledger) (b : Block)
    (h0 : 0 < l.blocks.length)
    (h1 : b.previous_hash = l.latest_block.to_block_hash)
    (h2 : b.header.transactions_root = to_transactions_root b.transactions)
    (h3 : b.header.serial_numbers_root =
      accumulator_root (l.serial_numbers.leaves ++ b.to_serial_numbers))
    (h4 : b.header.commitments_root =
      accumulator_root (l.commitments.leaves ++ b.to_commitments))
    (h5 : b.header.difficulty_target =
      compute_difficulty_target l.latest_block.header.timestamp
        l.latest_block.header.difficulty_target b.header.timestamp)
    (h6 : b.to_serial_numbers.any
      (fun s => l.serial_numbers.leaves.contains s) = false) :
    ∃ l2, l.add_next_block b = .ok l2 ∧
      l2.latest_block_height = l.latest_block_height + 1 ∧
      l2.latest_block = b ∧
      l.try_add_next_block b = l2 := by
  have hok := Ledger.add_next_block_ok l b h1 h2 h3 h4 h5 h6
  refine ⟨_, hok, ?_, rfl, ?_⟩
  · unfold Ledger.latest_block_height
    simp only [List.length_append, List.length_singleton]
    omega
  · unfold Ledger.try_add_next_block
    rw [hok]

/-- Claim C2 witness: on the fresh ledger, the test-style valid next block is
accepted, the height advances from 0 to 1 and the block becomes the latest. -/
theorem claim_C2_witness :
    ∃ l2, Ledger.new.add_next_block valid_next_block = .ok l2 ∧
      l2.latest_block_height = Ledger.new.latest_block_height + 1 ∧
      l2.latest_block = valid_next_block ∧
      Ledger.new.try_add_next_block valid_next_block = l2 :=
  claim_C2_valid_block_appends Ledger.new valid_next_block (by decide)
    rfl rfl rfl rfl rfl (by decide)

/-- Claim C9 counterexample: a block whose declared difficulty target differs
from the recomputed value but whose previous hash is also stale is rejected
with `PreviousHashMismatchError`, not `DifficultyMismatchError`, because the
previous-hash check runs first. -/
theorem claim_C9_counterexample :
    stale_wrong_difficulty_block.header.difficulty_target ≠
      compute_difficulty_target Ledger.new.latest_block.header.timestamp
        Ledger.new.latest_block.header.difficulty_target
        stale_wrong_difficulty_block.header.timestamp ∧
    Ledger.new.add_next_block stale_wrong_difficulty_block =
      .error .PreviousHashMismatchError ∧
    Ledger.new.add_next_block stale_wrong_difficulty_block ≠
      .error .DifficultyMismatchError :=
  ⟨by decide, by decide, by decide⟩

/-- Claim C9 (amended): the difficulty-retarget computation is a pure
deterministic function of exactly (previous block timestamp, previous
difficulty target, candidate timestamp) — equal arguments give equal
targets — and a candidate block that passes the previous-hash and root
checks but whose declared target differs from the recomputed value is
rejected with `DifficultyMismatchError`, leaving the ledger unchanged. -/
theorem claim_C9_difficulty_retarget :
    (∀ p1 t1 c1 p2 t2 c2, p1 = p2 → t1 = t2 → c1 = c2 →
      compute_difficulty_target p1 t1 c1 = compute_difficulty_target p2 t2 c2) ∧
    (∀ (l : Ledger) (b : Block),
      b.previous_hash = l.latest_block.to_block_hash →
      b.header.transactions_root = to_transactions_root b.transactions →
      b.header.serial_numbers_root =
        accumulator_root (l.serial_numbers.leaves ++ b.to_serial_numbers) →
      b.header.commitments_root =
        accumulator_root (l.commitments.leaves ++ b.to_commitments) →
      b.header.difficulty_target ≠
        compute_difficulty_target l.latest_block.header.timestamp
          l.latest_block.header.difficulty_target b.header.timestamp →
      l.add_next_block b = .error .DifficultyMismatchError ∧
        l.try_add_next_block b = l) := by
  constructor
  · intro p1 t1 c1 p2 t2 c2 hp ht hc
    rw [hp, ht, hc]
  · intro l b h1 h2 h3 h4 h5
    exact Ledger.add_next_block_difficulty_mismatch l b h1 h2 h3 h4 h5

/-- Claim C9 witness: the retarget function applied twice to the genesis
arguments gives equal results, and a block differing from a valid one only in
its declared target is rejected with `DifficultyMismatchError`. -/
theorem claim_C9_witness :
    compute_difficulty_target 0 (2 ^ 32) 200 = compute_difficulty_target 0 (2 ^ 32) 200 ∧
    (Ledger.new.add_next_block wrong_difficulty_block =
        .error .DifficultyMismatchError ∧
      Ledger.new.try_add_next_block wrong_difficulty_block = Ledger.new) :=
  ⟨claim_C9_difficulty_retarget.1 0 (2 ^ 32) 200 0 (2 ^ 32) 200 rfl rfl rfl,
    claim_C9_difficulty_retarget.2 Ledger.new wrong_difficulty_block
      rfl rfl rfl rfl (by decide)⟩

/-- Claim C3: the inner-circuit fingerprint equals the domain-separated hash
of the minimal-bit encoding of the inner-circuit verifying key; the
once-cell-guarded derivation returns that value on the first call and on
every later call with the resulting cache (determinism of re-derivation);
and for Testnet1 the fingerprint's little-endian byte serialization equals
the pinned 48-byte sequence beginning 71, 211, 100, 34. -/
theorem claim_C3_inner_circuit_id :
    derive_inner_circuit_id =
      inner_circuit_id_crh (to_minimal_bits testnet1_inner_snark_vk) ∧
    (∀ cache : Option Nat,
      cache = none ∨ cache = some derive_inner_circuit_id →
      inner_circuit_id_get_or_init cache =
        (derive_inner_circuit_id, some derive_inner_circuit_id)) ∧
    inner_circuit_id_to_bytes_le = expected_inner_circuit_id ∧
    expected_inner_circuit_id.length = 48 ∧
    expected_inner_circuit_id.take 4 = [71, 211, 100, 34] := by
  refine ⟨rfl, ?_, by decide, by decide, by decide⟩
  intro cache h
  rcases h with h | h <;> subst h <;> rfl

/-- Claim C3 witness: a first call with an empty cache, and a second call fed
the resulting cache, both return the derived fingerprint. -/
theorem claim_C3_witness :
    inner_circuit_id_get_or_init none =
      (derive_inner_circuit_id, some derive_inner_circuit_id) ∧
    inner_circuit_id_get_or_init (some derive_inner_circuit_id) =
      (derive_inner_circuit_id, some derive_inner_circuit_id) :=
  ⟨claim_C3_inner_circuit_id.2.1 none (Or.inl rfl),
    claim_C3_inner_circuit_id.2.1 (some derive_inner_circuit_id) (Or.inr rfl)⟩

/-- Claim C4: for every correctly constructed transaction authorization —
any consumed-record list the builder accepts, any accepted state transition,
assembled against any ledger digest with one ledger-inclusion witness per
input slot that is valid for each non-padding consumed record (spec section
4.2: inputs carry a ledger-inclusion witness; padding records skip the
Merkle check) — the inner-circuit relation is satisfied and the pinned inner
constraint count is 176324; the outer circuit built from a valid inner proof
over the same public inputs is satisfied and its pinned constraint count is
162206. -/
theorem claim_C4_circuit_constraints (input_records : List Record)
    (state : StateTransition) (seed ledger_digest pid vk : Nat)
    (input_witnesses : List (List Nat)) (a : TransactionAuthorization)
    (ha : DPC.authorize input_records state seed = .ok a)
    (hw : input_witnesses.length = NUM_INPUT_RECORDS)
    (hincl : ∀ p ∈ a.input_records.zip input_witnesses,
      p.1.is_dummy = true ∨
        merkle_inclusion_verify p.2 p.1.commitment ledger_digest = true) :
    inner_circuit_satisfied (auth_to_inner_public a ledger_digest pid)
      (auth_to_inner_private a input_witnesses) = true ∧
    inner_circuit_num_constraints = 176324 ∧
    outer_circuit_satisfied (auth_outer_public a ledger_digest pid vk)
      (auth_outer_private a ledger_digest pid vk) = true ∧
    outer_circuit_num_constraints = 162206 :=
  ⟨inner_circuit_satisfied_of_authorize input_records state seed ledger_digest
      pid input_witnesses a ha hw hincl, rfl,
    outer_circuit_satisfied_of_valid_proof a ledger_digest pid vk, rfl⟩

/-- Claim C4 witness: two instances — the integration-test authorization
(no caller inputs, noop padding, default ledger digest and witnesses) and an
authorization consuming a real non-dummy record with a genuine Merkle
inclusion witness under a digest containing its commitment — both yield
satisfied inner and outer relations with the pinned constraint counts. -/
theorem claim_C4_witness :
    (inner_circuit_satisfied
        (auth_to_inner_public demo_authorization
          LedgerProof.default_commitments_root 5)
        (auth_to_inner_private demo_authorization
          LedgerProof.default_inclusion_proofs) = true ∧
      inner_circuit_num_constraints = 176324 ∧
      outer_circuit_satisfied
        (auth_outer_public demo_authorization
          LedgerProof.default_commitments_root 5 77)
        (auth_outer_private demo_authorization
          LedgerProof.default_commitments_root 5 77) = true ∧
      outer_circuit_num_constraints = 162206) ∧
    (inner_circuit_satisfied
        (auth_to_inner_public real_input_authorization real_input_digest 5)
        (auth_to_inner_private real_input_authorization
          real_input_witnesses) = true ∧
      inner_circuit_num_constraints = 176324 ∧
      outer_circuit_satisfied
        (auth_outer_public real_input_authorization real_input_digest 5 77)
        (auth_outer_private real_input_authorization
          real_input_digest 5 77) = true ∧
      outer_circuit_num_constraints = 162206) :=
  ⟨claim_C4_circuit_constraints [] demo_state 0
      LedgerProof.default_commitments_root 5 77
      LedgerProof.default_inclusion_proofs demo_authorization
      (by decide) (by decide) (by decide),
    claim_C4_circuit_constraints [real_input_record] real_input_state 4
      real_input_digest 5 77 real_input_witnesses real_input_authorization
      (by decide) (by decide) (by decide)⟩

/-- Claim C5: serializing any well-formed transaction to bytes and
deserializing those bytes yields the original transaction (`to_bytes_le`
then `read_le` is the identity). -/
theorem claim_C5_transaction_roundtrip (t : Transaction) (h : t.wf) :
    Transaction.read_le t.to_bytes_le = some t :=
  transaction_read_le_roundtrip t h

/-- Claim C5 witness: the round trip at a concrete coinbase transaction and a
concrete regular transaction. -/
theorem claim_C5_witness :
    (fresh_spend_transaction.wf ∧
      Transaction.read_le fresh_spend_transaction.to_bytes_le =
        some fresh_spend_transaction) ∧
    (regular_test_transaction.wf ∧
      Transaction.read_le regular_test_transaction.to_bytes_le =
        some regular_test_transaction) :=
  ⟨⟨by decide, claim_C5_transaction_roundtrip fresh_spend_transaction (by decide)⟩,
    ⟨by decide, claim_C5_transaction_roundtrip regular_test_transaction (by decide)⟩⟩

/-- Claim C6: a freshly constructed ledger starts at height 0, its latest
block is the genesis block, and the genesis block contains exactly one
transaction, which equals `genesis_block.to_coinbase_transaction()`. -/
theorem claim_C6_fresh_ledger :
    Ledger.new.latest_block_height = 0 ∧
    Ledger.new.latest_block = genesis_block ∧
    Ledger.new.latest_block_transactions.length = 1 ∧
    genesis_block.to_coinbase_transaction = some genesis_transaction ∧
    Ledger.new.latest_block_transactions = [genesis_transaction] :=
  ⟨rfl, rfl, rfl, by decide, rfl⟩

/-- Claim C7: decrypting the sole output ciphertext of a coinbase transaction
minted to a recipient at height h with the recipient's view key yields a
record owned by the recipient whose value is the block reward at h. -/
theorem claim_C7_coinbase_decrypt (sk h seed : Nat) :
    ∃ r : Record,
      ((Transaction.new_coinbase (Account.new sk).address (block_reward h)
          seed).encrypted_records.map
        (fun c => c.decrypt (ViewKey.from_private_key sk))) = [some r] ∧
      r.owner = (Account.new sk).address ∧
      r.value = block_reward h := by
  refine ⟨mint_record (Account.new sk).address (block_reward h) seed, ?_, rfl, rfl⟩
  unfold Transaction.new_coinbase
  dsimp only
  rw [List.map_cons, List.map_nil]
  rw [EncryptedRecord.decrypt_encrypt _ _ _
    (mint_record_wf _ _ _ (pow_256_32_eq ▸ hashN_lt _ _) (by norm_num [block_reward]))
    (show address_of_view_key (ViewKey.from_private_key sk) =
      (Account.new sk).address from rfl)]

/-- Claim C8: the builder pads the consumed-record list with no-op records
whenever fewer than `NUM_INPUT_RECORDS` are supplied (authorizing with an
empty input list succeeds on the demo state), and it fails with `ArityError`
exactly when the padded input count or the output count does not match the
network arities; being a pure function, a failure produces no
authorization. -/
theorem claim_C8_authorize_arity (input_records : List Record)
    (state : StateTransition) (seed : Nat) :
    (DPC.authorize input_records state seed = .error .ArityError ↔
      NUM_INPUT_RECORDS < input_records.length ∨
        state.outputs.length ≠ NUM_OUTPUT_RECORDS) ∧
    (∀ a, DPC.authorize input_records state seed = .ok a →
      a.input_records = input_records ++
        (List.range (NUM_INPUT_RECORDS - input_records.length)).map noop_record ∧
      a.input_records.length = NUM_INPUT_RECORDS) ∧
    (DPC.authorize [] demo_state 0).isOk = true := by
  refine ⟨DPC.authorize_arity_iff input_records state seed, ?_, by decide⟩
  intro a ha
  obtain ⟨hle, -, -, hA⟩ := DPC.authorize_ok_elim input_records state seed a ha
  subst hA
  refine ⟨rfl, ?_⟩
  simp only [List.length_append, List.length_map, List.length_range]
  omega

/-- Claim C8 witness: oversupplying three input records gives `ArityError`;
the empty input list is padded to exactly the two noop records and
authorization on the demo state succeeds. -/
theorem claim_C8_witness :
    DPC.authorize [noop_record 9, noop_record 9, noop_record 9] demo_state 0 =
      .error .ArityError ∧
    (demo_authorization.input_records =
      ([] : List Record) ++
        (List.range (NUM_INPUT_RECORDS - ([] : List Record).length)).map noop_record ∧
      demo_authorization.input_records.length = NUM_INPUT_RECORDS) ∧
    (DPC.authorize [] demo_state 0).isOk = true :=
  ⟨(claim_C8_authorize_arity [noop_record 9, noop_record 9, noop_record 9]
      demo_state 0).1.mpr (Or.inl (by decide)),
    (claim_C8_authorize_arity [] demo_state 0).2.1 demo_authorization (by decide),
    (claim_C8_authorize_arity [] demo_state 0).2.2⟩

/-- Claim C10: in the Testnet2 parameter registry, the verifying key returned
by `inner_circuit_verifying_key` equals the verifying key embedded in the
proving key returned by `inner_circuit_proving_key(true)`, and likewise for
the outer circuit. -/
theorem claim_C10_key_consistency :
    (Testnet2.inner_circuit_proving_key true).map Groth16ProvingKey.vk =
      some Testnet2.inner_circuit_verifying_key ∧
    (Testnet2.outer_circuit_proving_key true).map Groth16ProvingKey.vk =
      some Testnet2.outer_circuit_verifying_key :=
  ⟨rfl, rfl⟩

end SnarkVM
